import Mathlib

/-!
Verification development for the serverless payment-webhook pipeline
(webhook receiver, event processor, notification handler, and the
EventBridge routing rules of the CDK stack).

The TypeScript handlers are shallowly embedded as pure Lean functions:
JavaScript numbers are modelled as exact scaled decimals `m * 10 ^ e`
extended with NaN and the two infinities (float64 rounding and overflow
are out of scope; the amounts the pipeline compares are small decimals
where this model is faithful), clock reads (`Date.now()`,
`new Date().toISOString()`) are passed in as explicit parameters, and
each AWS SDK call becomes an element of an explicit effect list.
External service failures (DynamoDB / S3 / SQS / SNS availability) are
not modelled; the only per-item exception source kept is `JSON.parse`
of a malformed record body, which is what the batch-failure analysis
needs.
-/

namespace PaymentWebhooks

/-- A finite decimal number `m * 10 ^ e`; the exact value of every JSON
numeric literal and of every `parseFloat` result this pipeline handles. -/
structure Dec where
  m : Int
  e : Int
  deriving DecidableEq, Repr

/-- Bring two decimals to a common scale, returning the pair of integer
mantissas at that scale. -/
def Dec.commonInts (a b : Dec) : Int × Int :=
  if b.e ≤ a.e then (a.m * (10 : Int) ^ (a.e - b.e).toNat, b.m)
  else (a.m, b.m * (10 : Int) ^ (b.e - a.e).toNat)

/-- Numeric comparison `a ≤ b` on decimals. -/
def Dec.leD (a b : Dec) : Bool :=
  (Dec.commonInts a b).1 ≤ (Dec.commonInts a b).2

/-- Numeric comparison `a > b` on decimals. -/
def Dec.gtD (a b : Dec) : Bool :=
  (Dec.commonInts a b).1 > (Dec.commonInts a b).2

/-- A JavaScript number: a finite decimal, NaN, or an infinity. -/
inductive JNum where
  | num (d : Dec)
  | nan
  | pinf
  | ninf
  deriving DecidableEq, Repr

/-- The comparison `a > t` on a JS number against a decimal threshold;
NaN compares false, +Infinity true. -/
def JNum.gtNum : JNum → Dec → Bool
  | .num d, t => d.gtD t
  | .nan, _ => false
  | .pinf, _ => true
  | .ninf, _ => false

/-- A JSON scalar as it may appear in the `amount` field of a webhook
payload: either a JSON number or a JSON string. -/
inductive JVal where
  | jnum (d : Dec)
  | jstr (s : String)
  deriving DecidableEq, Repr

/-- JavaScript truthiness of a JSON scalar: 0 and the empty string are
falsy, everything else is truthy. -/
def JVal.truthy : JVal → Bool
  | .jnum d => d.m != 0
  | .jstr s => s != ""

/-- JavaScript `x || d` for a possibly-absent string `x`: the default is
taken when the field is absent or the empty string. -/
def jsOrStr (o : Option String) (d : String) : String :=
  match o with
  | some s => if s = "" then d else s
  | none => d

/-- Digit accumulator for the decimal parser. -/
def digitsToNat (cs : List Char) : Nat :=
  cs.foldl (fun n c => 10 * n + (c.toNat - '0'.toNat)) 0

/-- Parse an optional exponent part (`e`/`E`, optional sign, digits);
returns 0 when no well-formed exponent follows, as `parseFloat` then
simply stops at the longest valid prefix. -/
def parseExponent (cs : List Char) : Int :=
  match cs with
  | 'e' :: rest | 'E' :: rest =>
    let (esign, rest') :=
      match rest with
      | '+' :: r => (false, r)
      | '-' :: r => (true, r)
      | r => (false, r)
    let (ds, _) := rest'.span Char.isDigit
    if ds.isEmpty then 0
    else if esign then -(digitsToNat ds : Int) else (digitsToNat ds : Int)
  | _ => 0

/-- JavaScript `parseFloat` on a string: skip leading whitespace, an
optional sign, then the longest decimal literal (digits, optional
fraction, optional exponent) or the `Infinity` literal; NaN when no
digits are found at all. -/
def parseFloatStr (s : String) : JNum :=
  let cs := s.data.dropWhile (fun c => c = ' ' ∨ c = '\t' ∨ c = '\n' ∨ c = '\r')
  let (sign, cs₁) :=
    match cs with
    | '+' :: r => (false, r)
    | '-' :: r => (true, r)
    | r => (false, r)
  if ("Infinity".data).isPrefixOf cs₁ then
    if sign then JNum.ninf else JNum.pinf
  else
    let (ip, rest) := cs₁.span Char.isDigit
    let (fp, rest₂) :=
      match rest with
      | '.' :: r => r.span Char.isDigit
      | r => ([], r)
    if ip.isEmpty ∧ fp.isEmpty then JNum.nan
    else
      let mag : Int := (digitsToNat (ip ++ fp) : Int)
      JNum.num ⟨if sign then -mag else mag, parseExponent rest₂ - fp.length⟩

/-- JavaScript `parseFloat` applied to a JSON scalar: a number is
converted to its string form and re-parsed, which is the identity for
finite numbers; a string goes through `parseFloatStr`. -/
def parseFloatJs : JVal → JNum
  | .jnum d => JNum.num d
  | .jstr s => parseFloatStr s

/-- The processor's amount normalization `parseFloat(payload.amount || 0)`:
an absent or falsy amount yields 0, otherwise the parse of the value. -/
def normalizeAmount (o : Option JVal) : JNum :=
  match o with
  | none => JNum.num ⟨0, 0⟩
  | some v => if v.truthy then parseFloatJs v else JNum.num ⟨0, 0⟩

/-- An inbound webhook payload, restricted to the fields the system
reads; each is optional because providers may omit any of them. -/
structure Payload where
  paymentId : Option String
  provider : Option String
  amount : Option JVal
  currency : Option String
  status : Option String
  deriving DecidableEq, Repr

/-- The processing-queue message `{paymentId, timestamp, payload}`
enqueued by the receiver. -/
structure QueueMsg where
  paymentId : String
  timestamp : Int
  payload : Payload
  deriving DecidableEq, Repr

/-- The normalized payment record the processor builds (the
`processedPayment` object of the event-processor handler). -/
structure ProcessedPayment where
  paymentId : String
  timestamp : Int
  provider : String
  amount : JNum
  currency : String
  status : String
  processedAt : Int
  deriving DecidableEq, Repr

/-- The event processor's transform of one queued message, with the
`Date.now()` read passed in as `now`. -/
def processPayment (m : QueueMsg) (now : Int) : ProcessedPayment :=
  { paymentId := m.paymentId
    timestamp := m.timestamp
    provider := jsOrStr m.payload.provider "unknown"
    amount := normalizeAmount m.payload.amount
    currency := jsOrStr m.payload.currency "USD"
    status := jsOrStr m.payload.status "processed"
    processedAt := now }

/-- A DynamoDB item for the payment table, as an attribute record; the
key attributes live in the key, absent attributes are `none`.  The
`amountAttr` field is the string written for the numeric attribute
(`payload.amount?.toString() || '0'` in the receiver). -/
structure DbItem where
  provider : Option String
  amountAttr : Option String
  status : Option String
  rawPayload : Option Payload
  processedAt : Option Int
  currency : Option String
  deriving DecidableEq, Repr

/-- The payment table keyed by `(paymentId, timestamp)`. -/
def Table : Type := String × Int → Option DbItem

/-- The empty attribute record created when `UpdateItem` touches a
missing key. -/
def DbItem.empty : DbItem :=
  ⟨none, none, none, none, none, none⟩

/-- The processor's `UpdateItemCommand` on the table: at the message's
key, `SET status = 'processed', processedAt = now, currency = c` where
`c` is the normalized currency; DynamoDB creates the item when the key
is absent.  The second `Date.now()` read of the handler is `now`. -/
def processorUpdate (t : Table) (m : QueueMsg) (now : Int) : Table :=
  fun k =>
    if k = (m.paymentId, m.timestamp) then
      let old := (t k).getD DbItem.empty
      some { old with
              status := some "processed"
              processedAt := some now
              currency := some (processPayment m now).currency }
    else t k

/-- One observable AWS call made by the event processor. -/
inductive ProcEffect where
  | updateItem (paymentId : String) (timestamp : Int)
      (status : String) (processedAt : Int) (currency : String)
  | putEvent (source detailType : String) (detail : ProcessedPayment)
  | notifSend (body : ProcessedPayment)
  deriving DecidableEq, Repr

/-- The effect list of the event processor for one queued message: the
DynamoDB update, the EventBridge publication, and — exactly when
`processedPayment.amount > 10000 || payload.status === 'failed'` — the
send to the notification queue. -/
def processRecordEffects (m : QueueMsg) (now : Int) : List ProcEffect :=
  let p := processPayment m now
  [ProcEffect.updateItem m.paymentId m.timestamp "processed" now p.currency,
   ProcEffect.putEvent "payment.processor" "Payment Processed" p] ++
  (if p.amount.gtNum ⟨10000, 0⟩ || m.payload.status == some "failed"
   then [ProcEffect.notifSend p] else [])

/-- An SQS record body as the processor sees it: either well-formed JSON
carrying a queue message, or a body on which `JSON.parse` throws. -/
inductive ProcRecord where
  | malformed
  | json (m : QueueMsg)
  deriving DecidableEq, Repr

/-- Outcome of one Lambda invocation over a batch: whether the handler
threw, and the effects it performed before returning or throwing. -/
structure BatchResult (α : Type) where
  threw : Bool
  effects : List α
  deriving DecidableEq, Repr

/-- The event processor's batch loop: records are processed in order;
the first record whose body fails to parse makes the handler rethrow,
abandoning the rest of the batch. -/
def processorBatch (records : List ProcRecord) (now : Int) :
    BatchResult ProcEffect :=
  match records with
  | [] => ⟨false, []⟩
  | ProcRecord.malformed :: _ => ⟨true, []⟩
  | ProcRecord.json m :: rest =>
    let r := processorBatch rest now
    ⟨r.threw, processRecordEffects m now ++ r.effects⟩

/-- SQS redelivery for a Lambda event-source mapping configured without
a partial-batch (per-item) failure response, which is how the stack
registers both `SqsEventSource`s (only `batchSize` is set): when the
invocation throws, every record of the batch becomes visible again;
when it returns, none do. -/
def sqsRedelivered {α : Type} (records : List α) (threw : Bool) : List α :=
  if threw then records else []

/-- The notification-queue message as the notifier parses it: the JSON
round trip of a `ProcessedPayment`, in which a non-finite amount has
been serialized as `null` (`none` here). -/
structure NotifMsg where
  paymentId : String
  timestamp : Int
  provider : String
  amount : Option Dec
  currency : String
  status : String
  processedAt : Int
  deriving DecidableEq, Repr

/-- JSON serialization of a JS number: non-finite numbers become null. -/
def jnumToJson : JNum → Option Dec
  | .num d => some d
  | _ => none

/-- The JSON round trip `JSON.parse(JSON.stringify(processedPayment))`
through the notification queue. -/
def toNotifMsg (p : ProcessedPayment) : NotifMsg :=
  { paymentId := p.paymentId
    timestamp := p.timestamp
    provider := p.provider
    amount := jnumToJson p.amount
    currency := p.currency
    status := p.status
    processedAt := p.processedAt }

/-- The notifier's amount, `parseFloat(payment.amount || 0)`: a null or
zero amount is falsy and yields 0; a number re-parses to itself. -/
def notifAmount (o : Option Dec) : Dec :=
  match o with
  | none => ⟨0, 0⟩
  | some d => if d.m = 0 then ⟨0, 0⟩ else d

/-- Fuelled loop stripping factors of ten from a mantissa into the
exponent; the fuel bounds the digit count. -/
def stripZerosAux : Nat → Nat → Int → Nat × Int
  | 0, n, e => (n, e)
  | fuel + 1, n, e =>
    if n % 10 = 0 ∧ n ≠ 0 then stripZerosAux fuel (n / 10) (e + 1) else (n, e)

/-- Strip trailing zeros from a mantissa, moving them into the
exponent, so that the rendering prints no trailing fractional zeros. -/
def stripZeros (n : Nat) (e : Int) : Nat × Int :=
  stripZerosAux n n e

/-- Left-pad a string with zeros to the given length. -/
def padZeros (s : String) (n : Nat) : String :=
  if s.length < n then String.mk (List.replicate (n - s.length) '0') ++ s else s

/-- Render a non-negative mantissa/exponent pair the way JavaScript
prints the number `n * 10 ^ e` (plain notation; the exponential
notation JS switches to beyond 1e21 / below 1e-7 is outside the
modelled fragment). -/
def renderDecimal (n : Nat) (e : Int) : String :=
  if 0 ≤ e then toString n ++ String.mk (List.replicate e.toNat '0')
  else
    let k := (-e).toNat
    let digits := padZeros (toString n) (k + 1)
    let cut := digits.length - k
    (digits.toSubstring.take cut).toString ++ "." ++
      (digits.toSubstring.drop cut).toString

/-- JavaScript default number-to-string conversion for a finite decimal:
sign, then the shortest plain decimal form, with `0` for zero. -/
def Dec.toJsString (d : Dec) : String :=
  if d.m = 0 then "0"
  else
    let (n, e) := stripZeros d.m.natAbs d.e
    (if d.m < 0 then "-" else "") ++ renderDecimal n e

/-- JavaScript `toFixed(2)`: the value rounded to two decimal places
(half away from zero, which agrees with the ECMA rule on the
non-negative amounts this system renders) and printed with exactly two
fraction digits. -/
def Dec.toFixed2 (d : Dec) : String :=
  let scaledE := d.e + 2
  let n : Int :=
    if 0 ≤ scaledE then d.m * (10 : Int) ^ scaledE.toNat
    else
      let p := (10 : Int) ^ (-scaledE).toNat
      (if d.m < 0 then -1 else 1) * ((d.m.natAbs + p.toNat / 2) / p.toNat : Nat)
  (if n < 0 then "-" else "") ++ toString (n.natAbs / 100) ++ "." ++
    padZeros (toString (n.natAbs % 100)) 2

/-- The interpolated fields of the notifier's alert body; the static
template text around them (and the ISO-8601 rendering of the
millisecond timestamp) is elided, each interpolation site being kept as
a field. -/
structure AlertBody where
  alertType : String
  paymentId : String
  provider : String
  amountFixed : String
  currency : String
  status : String
  alertTimestampMs : Int
  footer : String
  deriving DecidableEq, Repr

/-- One observable AWS call made by the notification handler. -/
inductive NotifEffect where
  | publish (subject : String) (body : AlertBody)
  deriving DecidableEq, Repr

/-- The notification handler's work for one parsed message: look the
key up in the payment table and skip with a warning when absent;
otherwise re-derive amount/provider/status from the message and publish
the alert exactly when `amount > 10000 || status === 'failed'`. -/
def notifyRecordEffects (t : Table) (msg : NotifMsg) : List NotifEffect :=
  match t (msg.paymentId, msg.timestamp) with
  | none => []
  | some _ =>
    let amount := notifAmount msg.amount
    let provider := if msg.provider = "" then "unknown" else msg.provider
    let status := if msg.status = "" then "unknown" else msg.status
    if amount.gtD ⟨10000, 0⟩ || status == "failed" then
      [NotifEffect.publish
        (if status == "failed"
         then "URGENT: Failed Payment Alert - $" ++ amount.toJsString
         else "High-Value Payment Alert: $" ++ amount.toJsString)
        { alertType := if status == "failed" then "FAILED PAYMENT"
                       else "HIGH-VALUE PAYMENT"
          paymentId := msg.paymentId
          provider := provider
          amountFixed := amount.toFixed2
          currency := if msg.currency = "" then "USD" else msg.currency
          status := status
          alertTimestampMs :=
            if msg.processedAt = 0 then msg.timestamp else msg.processedAt
          footer := if status == "failed" then "IMMEDIATE ACTION REQUIRED"
                    else "Please review this transaction for compliance." }]
    else []

/-- An SQS record body as the notifier sees it. -/
inductive NotifRecord where
  | malformed
  | json (m : NotifMsg)
  deriving DecidableEq, Repr

/-- The notification handler's batch loop: records in order, rethrow on
the first body that fails to parse. -/
def notifierBatch (records : List NotifRecord) (t : Table) :
    BatchResult NotifEffect :=
  match records with
  | [] => ⟨false, []⟩
  | NotifRecord.malformed :: _ => ⟨true, []⟩
  | NotifRecord.json m :: rest =>
    let r := notifierBatch rest t
    ⟨r.threw, notifyRecordEffects t m ++ r.effects⟩

/-- The stubbed signature check of the receiver, which accepts
everything. -/
def validateSignature (_payload : Payload) (_signature : String) : Bool :=
  true

/-- A request body as the receiver sees it: either well-formed JSON
carrying a payload, or a body on which `JSON.parse` throws. -/
inductive ReqBody where
  | malformed
  | json (p : Payload)
  deriving DecidableEq, Repr

/-- The parts of an API Gateway event the receiver reads.  The two
header fields are the two spellings of the signature header the code
looks up. -/
structure ApiRequest where
  path : String
  httpMethod : String
  headerSigUpper : Option String
  headerSigLower : Option String
  body : Option ReqBody
  deriving DecidableEq, Repr

/-- The JSON response bodies the receiver can serialize. -/
inductive RespBody where
  | healthy (timestamp : String)
  | errorOnly (error : String)
  | errorWithMessage (error message : String)
  | success (message : String) (paymentId : String) (timestamp : Int)
  deriving DecidableEq, Repr

/-- One observable AWS call made by the webhook receiver. -/
inductive ReceiverEffect where
  | dynamoPut (paymentId : String) (timestamp : Int) (item : DbItem)
  | s3Put (key : String) (payload : Payload)
  | sqsSend (paymentId : String) (timestamp : Int) (payload : Payload)
  deriving DecidableEq, Repr

/-- The receiver's HTTP result together with the side effects it
performed. -/
structure ReceiverResult where
  statusCode : Nat
  body : RespBody
  effects : List ReceiverEffect
  deriving DecidableEq, Repr

/-- JavaScript `toString` of a JSON scalar. -/
def JVal.toJsStr : JVal → String
  | .jnum d => d.toJsString
  | .jstr s => s

/-- The receiver's amount attribute,
`payload.amount?.toString() || '0'`. -/
def amountAttrString (o : Option JVal) : String :=
  match o with
  | none => "0"
  | some v => if v.toJsStr = "" then "0" else v.toJsStr

/-- The DynamoDB item the receiver writes for an accepted payload. -/
def receiverItem (p : Payload) : DbItem :=
  { provider := some (jsOrStr p.provider "unknown")
    amountAttr := some (amountAttrString p.amount)
    status := some "received"
    rawPayload := some p
    processedAt := none
    currency := none }

/-- The webhook receiver's handler.  The fresh UUID, `Date.now()`, the
ISO clock string, and the date component of the archive key are passed
in as parameters; the AWS clients are modelled as available, so the
catch-all 500 branch is reachable only from the `JSON.parse` of the
body (whose `SyntaxError` text is kept abstract as a constant). -/
def webhookHandler (req : ApiRequest) (uuid : String) (now : Int)
    (nowIso today : String) : ReceiverResult :=
  if req.path = "/health" ∨ req.httpMethod = "GET" then
    ⟨200, RespBody.healthy nowIso, []⟩
  else
    match req.body with
    | none => ⟨400, RespBody.errorOnly "Missing request body", []⟩
    | some ReqBody.malformed =>
      ⟨500, RespBody.errorWithMessage "Internal server error"
        "Unexpected token in JSON", []⟩
    | some (ReqBody.json p) =>
      let signature := jsOrStr req.headerSigUpper (jsOrStr req.headerSigLower "")
      if validateSignature p signature = false then
        ⟨401, RespBody.errorOnly "Invalid signature", []⟩
      else
        let paymentId := jsOrStr p.paymentId uuid
        ⟨200, RespBody.success "Webhook received" paymentId now,
         [ReceiverEffect.dynamoPut paymentId now (receiverItem p),
          ReceiverEffect.s3Put ("webhooks/" ++ today ++ "/" ++ paymentId ++ ".json") p,
          ReceiverEffect.sqsSend paymentId now p]⟩

/-- An event as delivered to the custom bus, restricted to the fields
the two routing rules pattern-match on. -/
structure BusEvent where
  source : String
  detailType : String
  detail : ProcessedPayment
  deriving DecidableEq, Repr

/-- The entry the processor publishes for a queued message. -/
def processorBusEvent (m : QueueMsg) (now : Int) : BusEvent :=
  ⟨"payment.processor", "Payment Processed", processPayment m now⟩

/-- The `HighValuePaymentRule` pattern of the stack: source
`payment.processor`, detail type `Payment Processed`, and
`detail.amount` matching `numeric >, 10000`; a non-finite amount
serializes to JSON null, which the numeric condition never matches. -/
def highValueRuleMatches (ev : BusEvent) : Bool :=
  ev.source == "payment.processor" && ev.detailType == "Payment Processed" &&
    (match jnumToJson ev.detail.amount with
     | some d => d.gtD ⟨10000, 0⟩
     | none => false)

/-- The `StandardPaymentRule` pattern of the stack: same source and
detail type, `detail.amount` matching `numeric <=, 10000`. -/
def standardRuleMatches (ev : BusEvent) : Bool :=
  ev.source == "payment.processor" && ev.detailType == "Payment Processed" &&
    (match jnumToJson ev.detail.amount with
     | some d => d.leD ⟨10000, 0⟩
     | none => false)

example : parseFloatStr "15000" = JNum.num ⟨15000, 0⟩ := by decide
example : parseFloatStr "10000.01" = JNum.num ⟨1000001, -2⟩ := by decide
example : parseFloatStr "abc" = JNum.nan := by decide
example : JNum.gtNum (JNum.num ⟨1000001, -2⟩) ⟨10000, 0⟩ = true := by decide
example : JNum.gtNum (JNum.num ⟨10000, 0⟩) ⟨10000, 0⟩ = false := by decide
example : Dec.toJsString ⟨50, 0⟩ = "50" := by decide
example : Dec.toJsString ⟨1000001, -2⟩ = "10000.01" := by decide
example : Dec.toJsString ⟨505, -1⟩ = "50.5" := by decide
example : Dec.toFixed2 ⟨50, 0⟩ = "50.00" := by decide
example : Dec.toFixed2 ⟨15000, 0⟩ = "15000.00" := by decide
example : Dec.toFixed2 ⟨1234567, -3⟩ = "1234.57" := by decide

/-- The subject line of a published alert. -/
def NotifEffect.subject : NotifEffect → String
  | .publish s _ => s

/-- The body of a published alert. -/
def NotifEffect.alertBody : NotifEffect → AlertBody
  | .publish _ b => b

/-- A queued message whose payload has none of the recognized fields. -/
def msgEmpty : QueueMsg :=
  ⟨"p0", 0, ⟨none, none, none, none, none⟩⟩

/-- A payload carrying `status: "failed"` and a non-numeric amount. -/
def payloadFailedAbc : Payload :=
  ⟨some "pay_1", some "stripe", some (JVal.jstr "abc"), some "USD", some "failed"⟩

/-- The queued message for `payloadFailedAbc`. -/
def msgFailedAbc : QueueMsg :=
  ⟨"pay_1", 1700000000000, payloadFailedAbc⟩

/-- A table in which every key resolves to some item. -/
def tableAll : Table :=
  fun _ => some DbItem.empty

/-- A table with no items. -/
def emptyTable : Table :=
  fun _ => none

/-- The notification message of the failed-payment scenario:
`status: "failed"`, amount 50. -/
def notifMsgFailed50 : NotifMsg :=
  ⟨"pay_1", 1700000000000, "stripe", some ⟨50, 0⟩, "USD", "failed",
    1700000000500⟩

/-- The notification message of the high-value scenario: `processed`,
amount 15000. -/
def notifMsg15000 : NotifMsg :=
  ⟨"pay_1", 1700000000000, "stripe", some ⟨15000, 0⟩, "USD", "processed",
    1700000000500⟩

theorem processorBatch_append_malformed (pre post : List ProcRecord)
    (now : Int) :
    (processorBatch (pre ++ ProcRecord.malformed :: post) now).threw = true ∧
    (processorBatch (pre ++ ProcRecord.malformed :: post) now).effects =
      (processorBatch pre now).effects := by
  induction pre with
  | nil => simp [processorBatch]
  | cons r rest ih =>
    cases r with
    | malformed => simp [processorBatch]
    | json m => simp [processorBatch, ih.1, ih.2]

theorem notifierBatch_append_malformed (pre post : List NotifRecord)
    (t : Table) :
    (notifierBatch (pre ++ NotifRecord.malformed :: post) t).threw = true ∧
    (notifierBatch (pre ++ NotifRecord.malformed :: post) t).effects =
      (notifierBatch pre t).effects := by
  induction pre with
  | nil => simp [notifierBatch]
  | cons r rest ih =>
    cases r with
    | malformed => simp [notifierBatch]
    | json m => simp [notifierBatch, ih.1, ih.2]

theorem Dec.gtD_eq_not_leD (a b : Dec) : a.gtD b = !(a.leD b) := by
  unfold Dec.gtD Dec.leD
  rcases le_or_lt (Dec.commonInts a b).1 (Dec.commonInts a b).2 with h | h
  · simp [h, not_lt.mpr h]
  · simp [h, not_le.mpr h]

/-- Claim C2: the processor forwards the normalized event to the
notification queue exactly when the normalized amount exceeds 10000 or
the original inbound payload's status equals "failed". -/
theorem processor_notification_trigger (m : QueueMsg) (now : Int) :
    ProcEffect.notifSend (processPayment m now) ∈ processRecordEffects m now ↔
      ((processPayment m now).amount.gtNum ⟨10000, 0⟩ = true ∨
        m.payload.status = some "failed") := by
  unfold processRecordEffects
  by_cases h : (processPayment m now).amount.gtNum ⟨10000, 0⟩ ||
      m.payload.status == some "failed"
  · simp only [h, if_pos]
    rw [Bool.or_eq_true, beq_iff_eq] at h
    simp [h]
  · simp only [h, if_neg]
    rw [Bool.or_eq_true, beq_iff_eq] at h
    push_neg at h
    simp [h.1, h.2]

/-- Claim C7: the processor's DynamoDB update is overwrite-equivalent:
re-applying the update for the same queued item leaves exactly the
state a single application produces, so the stored status, processedAt
and currency agree with a single application. -/
theorem processorUpdate_idempotent (t : Table) (m : QueueMsg)
    (t1 t2 : Int) :
    processorUpdate (processorUpdate t m t1) m t2 = processorUpdate t m t2 := by
  funext k
  unfold processorUpdate
  by_cases hk : k = (m.paymentId, m.timestamp)
  · simp only [hk, if_pos]
    cases t (m.paymentId, m.timestamp) <;> rfl
  · simp only [if_neg hk]

/-- Claim C8: a notification message whose key is absent from the
payment table is skipped: the notifier completes the batch without
publishing an alert and without throwing, so nothing is redelivered. -/
theorem notifier_missing_record (t : Table) (m : NotifMsg)
    (h : t (m.paymentId, m.timestamp) = none) :
    notifierBatch [NotifRecord.json m] t = ⟨false, []⟩ ∧
    sqsRedelivered [NotifRecord.json m]
      (notifierBatch [NotifRecord.json m] t).threw = [] := by
  have he : notifyRecordEffects t m = [] := by
    unfold notifyRecordEffects
    rw [h]
  constructor
  · simp [notifierBatch, he]
  · simp [notifierBatch, he, sqsRedelivered]

/-- Witness for C8 at a concrete message and the empty table. -/
theorem notifier_missing_record_witness :
    emptyTable (notifMsg15000.paymentId, notifMsg15000.timestamp) = none ∧
    notifierBatch [NotifRecord.json notifMsg15000] emptyTable = ⟨false, []⟩ :=
  ⟨rfl, (notifier_missing_record emptyTable notifMsg15000 rfl).1⟩

/-- Claim C9: a health-check request (path `/health` or method GET)
gets a 200 response with the healthy body and the current time, and the
receiver performs no store, archive or queue side effect. -/
theorem receiver_health_check (req : ApiRequest) (uuid : String) (now : Int)
    (nowIso today : String)
    (h : req.path = "/health" ∨ req.httpMethod = "GET") :
    webhookHandler req uuid now nowIso today =
      ⟨200, RespBody.healthy nowIso, []⟩ := by
  unfold webhookHandler
  rw [if_pos h]

/-- Witness for C9 at a concrete GET request. -/
theorem receiver_health_check_witness :
    ((⟨"/health", "GET", none, none, none⟩ : ApiRequest).path = "/health" ∨
      (⟨"/health", "GET", none, none, none⟩ : ApiRequest).httpMethod = "GET") ∧
    webhookHandler ⟨"/health", "GET", none, none, none⟩ "u" 3 "iso" "d" =
      ⟨200, RespBody.healthy "iso", []⟩ :=
  ⟨Or.inl rfl,
    receiver_health_check ⟨"/health", "GET", none, none, none⟩ "u" 3 "iso" "d"
      (Or.inl rfl)⟩

/-- Counterexample to claim C1 as stated: on a payload carrying
`status: "failed"` and the unparseable amount `"abc"`, the normalized
event's status is not the constant "processed" and its amount is NaN,
not 0. -/
theorem processor_normalization_counterexample :
    ¬ ((processPayment msgFailedAbc 1700000000005).status = "processed" ∧
       (processPayment msgFailedAbc 1700000000005).amount = JNum.num ⟨0, 0⟩) := by
  decide

/-- Claim C1 as amended: the normalized event defaults provider to
"unknown" and currency to "USD" when absent; the amount is 0 when
absent or falsy and otherwise the JS parse of the value (NaN, not 0,
when unparseable); the status is the payload's own status, defaulted to
"processed" only when absent; processedAt is the current time; and the
store update, separately, always writes status "processed". -/
theorem processor_normalization (m : QueueMsg) (now : Int) :
    ((m.payload.provider = none → (processPayment m now).provider = "unknown") ∧
     (∀ s, m.payload.provider = some s → s ≠ "" →
        (processPayment m now).provider = s)) ∧
    (m.payload.currency = none → (processPayment m now).currency = "USD") ∧
    ((m.payload.amount = none → (processPayment m now).amount = JNum.num ⟨0, 0⟩) ∧
     (∀ v, m.payload.amount = some v → v.truthy = true →
        (processPayment m now).amount = parseFloatJs v) ∧
     parseFloatStr "abc" = JNum.nan) ∧
    ((m.payload.status = none → (processPayment m now).status = "processed") ∧
     (∀ s, m.payload.status = some s → s ≠ "" →
        (processPayment m now).status = s)) ∧
    (processPayment m now).processedAt = now ∧
    ProcEffect.updateItem m.paymentId m.timestamp "processed" now
      (processPayment m now).currency ∈ processRecordEffects m now := by
  refine ⟨⟨?_, ?_⟩, ?_, ⟨?_, ?_, by decide⟩, ⟨?_, ?_⟩, rfl, ?_⟩
  · intro h; simp [processPayment, jsOrStr, h]
  · intro s hs hne; simp [processPayment, jsOrStr, hs, hne]
  · intro h; simp [processPayment, jsOrStr, h]
  · intro h; simp [processPayment, normalizeAmount, h]
  · intro v hv htr; simp [processPayment, normalizeAmount, hv, htr]
  · intro h; simp [processPayment, jsOrStr, h]
  · intro s hs hne; simp [processPayment, jsOrStr, hs, hne]
  · simp only [processRecordEffects]
    exact List.mem_append_left _ (List.mem_cons_self _ _)

/-- Witness for the amended C1 at two concrete messages. -/
theorem processor_normalization_witness :
    msgEmpty.payload.provider = none ∧
    (processPayment msgEmpty 7).provider = "unknown" ∧
    (processPayment msgEmpty 7).currency = "USD" ∧
    (processPayment msgEmpty 7).amount = JNum.num ⟨0, 0⟩ ∧
    (processPayment msgEmpty 7).status = "processed" ∧
    msgFailedAbc.payload.status = some "failed" ∧
    (processPayment msgFailedAbc 7).status = "failed" := by
  have h0 := processor_normalization msgEmpty 7
  have h1 := processor_normalization msgFailedAbc 7
  exact ⟨rfl, h0.1.1 rfl, h0.2.1 rfl, h0.2.2.1.1 rfl, h0.2.2.2.1.1 rfl,
    rfl, h1.2.2.2.1.2 "failed" rfl (by decide)⟩

/-- Counterexample to claim C3 as stated: in a two-item batch whose
first item succeeds and whose second fails, the whole batch — not only
the failing item — is reported for redelivery, so the already-processed
first item is redelivered. -/
theorem batch_failure_counterexample :
    ProcRecord.json msgEmpty ∈
      sqsRedelivered [ProcRecord.json msgEmpty, ProcRecord.malformed]
        (processorBatch [ProcRecord.json msgEmpty, ProcRecord.malformed] 0).threw ∧
    sqsRedelivered [ProcRecord.json msgEmpty, ProcRecord.malformed]
        (processorBatch [ProcRecord.json msgEmpty, ProcRecord.malformed] 0).threw ≠
      [ProcRecord.malformed] := by
  decide

/-- Claim C3 as amended: when an item of a batch fails, the processor
and the notifier throw, so the invocation fails as a whole: the items
before the failing one have had their effects performed, the items
after it are not processed, and every item of the batch — the
successful ones included — becomes eligible for redelivery. -/
theorem batch_failure_all_redelivered (pre post : List ProcRecord) (now : Int)
    (npre npost : List NotifRecord) (t : Table) :
    (processorBatch (pre ++ ProcRecord.malformed :: post) now).threw = true ∧
    (processorBatch (pre ++ ProcRecord.malformed :: post) now).effects =
      (processorBatch pre now).effects ∧
    sqsRedelivered (pre ++ ProcRecord.malformed :: post)
        (processorBatch (pre ++ ProcRecord.malformed :: post) now).threw =
      pre ++ ProcRecord.malformed :: post ∧
    (notifierBatch (npre ++ NotifRecord.malformed :: npost) t).threw = true ∧
    (notifierBatch (npre ++ NotifRecord.malformed :: npost) t).effects =
      (notifierBatch npre t).effects ∧
    sqsRedelivered (npre ++ NotifRecord.malformed :: npost)
        (notifierBatch (npre ++ NotifRecord.malformed :: npost) t).threw =
      npre ++ NotifRecord.malformed :: npost := by
  refine ⟨(processorBatch_append_malformed pre post now).1,
    (processorBatch_append_malformed pre post now).2, ?_,
    (notifierBatch_append_malformed npre npost t).1,
    (notifierBatch_append_malformed npre npost t).2, ?_⟩
  · rw [(processorBatch_append_malformed pre post now).1]; rfl
  · rw [(notifierBatch_append_malformed npre npost t).1]; rfl

/-- Counterexample to claim C4 as stated: a non-health-check request
whose body is present but is not valid JSON is answered with 500, not
400 (only the missing-body case gets a 400). -/
theorem receiver_bad_body_counterexample :
    (webhookHandler ⟨"/webhook", "POST", none, none, some ReqBody.malformed⟩
        "u" 0 "iso" "d").statusCode = 500 ∧
    (webhookHandler ⟨"/webhook", "POST", none, none, some ReqBody.malformed⟩
        "u" 0 "iso" "d").statusCode ≠ 400 ∧
    (webhookHandler ⟨"/webhook", "POST", none, none, some ReqBody.malformed⟩
        "u" 0 "iso" "d").effects = [] := by
  decide

/-- Claim C4 as amended: for a non-health-check request, a missing body
is answered with 400 and an error body; a body that fails to parse as
JSON is answered with 500 (the catch-all); in both cases no store,
archive or queue side effect is performed. -/
theorem receiver_bad_body (req : ApiRequest) (uuid : String) (now : Int)
    (nowIso today : String)
    (hp : req.path ≠ "/health") (hm : req.httpMethod ≠ "GET") :
    (req.body = none →
      webhookHandler req uuid now nowIso today =
        ⟨400, RespBody.errorOnly "Missing request body", []⟩) ∧
    (req.body = some ReqBody.malformed →
      (webhookHandler req uuid now nowIso today).statusCode = 500 ∧
      (webhookHandler req uuid now nowIso today).effects = []) := by
  have hcond : ¬(req.path = "/health" ∨ req.httpMethod = "GET") := by
    tauto
  constructor
  · intro hb
    unfold webhookHandler
    rw [if_neg hcond, hb]
  · intro hb
    unfold webhookHandler
    rw [if_neg hcond, hb]
    exact ⟨rfl, rfl⟩

/-- Witness for the amended C4 at concrete requests. -/
theorem receiver_bad_body_witness :
    ("/webhook" : String) ≠ "/health" ∧ ("POST" : String) ≠ "GET" ∧
    webhookHandler ⟨"/webhook", "POST", none, none, none⟩ "u" 1 "i" "d" =
      ⟨400, RespBody.errorOnly "Missing request body", []⟩ ∧
    (webhookHandler ⟨"/webhook", "POST", none, none, some ReqBody.malformed⟩
        "u" 1 "i" "d").statusCode = 500 :=
  ⟨by decide, by decide,
   (receiver_bad_body ⟨"/webhook", "POST", none, none, none⟩ "u" 1 "i" "d"
      (by decide) (by decide)).1 rfl,
   ((receiver_bad_body ⟨"/webhook", "POST", none, none, some ReqBody.malformed⟩
      "u" 1 "i" "d" (by decide) (by decide)).2 rfl).1⟩

/-- Counterexample to claim C5 as stated: the subjects interpolate the
amount with the default JS number formatting, so the failed-payment
alert for amount 50 reads "$50" and the high-value alert for amount
15000 reads "$15000", not "$50.00" / "$15000.00". -/
theorem notifier_subject_counterexample :
    (notifyRecordEffects tableAll notifMsgFailed50).map NotifEffect.subject =
      ["URGENT: Failed Payment Alert - $50"] ∧
    ("URGENT: Failed Payment Alert - $50" : String) ≠
      "URGENT: Failed Payment Alert - $50.00" ∧
    (notifyRecordEffects tableAll notifMsg15000).map NotifEffect.subject =
      ["High-Value Payment Alert: $15000"] ∧
    ("High-Value Payment Alert: $15000" : String) ≠
      "High-Value Payment Alert: $15000.00" := by
  decide

/-- Claim C5 as amended: the alert subject renders the amount with the
default JS number formatting ("$50", "$15000"); the two-decimal
rendering appears in the alert body's amount field ("50.00",
"15000.00"). -/
theorem notifier_subject (t : Table) (msg : NotifMsg) (item : DbItem)
    (hfound : t (msg.paymentId, msg.timestamp) = some item) :
    (msg.status = "failed" →
      (notifyRecordEffects t msg).map NotifEffect.subject =
        ["URGENT: Failed Payment Alert - $" ++
          (notifAmount msg.amount).toJsString] ∧
      (notifyRecordEffects t msg).map (fun ef => ef.alertBody.amountFixed) =
        [(notifAmount msg.amount).toFixed2]) ∧
    (msg.status ≠ "failed" → (notifAmount msg.amount).gtD ⟨10000, 0⟩ = true →
      (notifyRecordEffects t msg).map NotifEffect.subject =
        ["High-Value Payment Alert: $" ++ (notifAmount msg.amount).toJsString] ∧
      (notifyRecordEffects t msg).map (fun ef => ef.alertBody.amountFixed) =
        [(notifAmount msg.amount).toFixed2]) ∧
    Dec.toJsString ⟨50, 0⟩ = "50" ∧ Dec.toFixed2 ⟨50, 0⟩ = "50.00" ∧
    Dec.toJsString ⟨15000, 0⟩ = "15000" ∧
    Dec.toFixed2 ⟨15000, 0⟩ = "15000.00" := by
  refine ⟨?_, ?_, by decide, by decide, by decide, by decide⟩
  · intro hs
    have hne : msg.status ≠ "" := by rw [hs]; decide
    simp [notifyRecordEffects, hfound, hs, NotifEffect.subject,
      NotifEffect.alertBody]
  · intro hs hgt
    by_cases he : msg.status = ""
    · simp [notifyRecordEffects, hfound, he, hgt, NotifEffect.subject,
        NotifEffect.alertBody]
    · simp [notifyRecordEffects, hfound, he, hs, hgt, NotifEffect.subject,
        NotifEffect.alertBody]

/-- Witness for the amended C5 at the two scenario messages. -/
theorem notifier_subject_witness :
    tableAll (notifMsgFailed50.paymentId, notifMsgFailed50.timestamp) =
      some DbItem.empty ∧
    notifMsgFailed50.status = "failed" ∧
    (notifyRecordEffects tableAll notifMsgFailed50).map NotifEffect.subject =
      ["URGENT: Failed Payment Alert - $" ++
        (notifAmount notifMsgFailed50.amount).toJsString] ∧
    notifMsg15000.status ≠ "failed" ∧
    (notifyRecordEffects tableAll notifMsg15000).map NotifEffect.subject =
      ["High-Value Payment Alert: $" ++
        (notifAmount notifMsg15000.amount).toJsString] :=
  ⟨rfl, rfl,
   ((notifier_subject tableAll notifMsgFailed50 DbItem.empty rfl).1 rfl).1,
   by decide,
   ((notifier_subject tableAll notifMsg15000 DbItem.empty rfl).2.1
      (by decide) (by decide)).1⟩

/-- A Payment Processed bus event with the given finite amount. -/
def busEventAt (d : Dec) : BusEvent :=
  ⟨"payment.processor", "Payment Processed",
   ⟨"p", 0, "stripe", JNum.num d, "USD", "processed", 0⟩⟩

/-- Claim C6: over Payment Processed events with a non-negative finite
amount, the two EventBridge rules partition the domain: exactly one of
the high-value rule (amount > 10000) and the standard rule
(amount <= 10000) matches, with 10000 matching only the standard rule
and 10000.01 only the high-value rule. -/
theorem eventbus_partition (ev : BusEvent) (d : Dec)
    (hs : ev.source = "payment.processor")
    (hdt : ev.detailType = "Payment Processed")
    (ha : ev.detail.amount = JNum.num d)
    (hnn : 0 ≤ d.m) :
    ((highValueRuleMatches ev = true ∧ standardRuleMatches ev = false) ∨
     (highValueRuleMatches ev = false ∧ standardRuleMatches ev = true)) ∧
    (d = ⟨10000, 0⟩ →
      standardRuleMatches ev = true ∧ highValueRuleMatches ev = false) ∧
    (d = ⟨1000001, -2⟩ →
      highValueRuleMatches ev = true ∧ standardRuleMatches ev = false) := by
  have hhv : highValueRuleMatches ev = d.gtD ⟨10000, 0⟩ := by
    simp [highValueRuleMatches, hs, hdt, ha, jnumToJson]
  have hst : standardRuleMatches ev = d.leD ⟨10000, 0⟩ := by
    simp [standardRuleMatches, hs, hdt, ha, jnumToJson]
  rw [hhv, hst]
  refine ⟨?_, ?_, ?_⟩
  · rw [Dec.gtD_eq_not_leD]
    cases h : d.leD ⟨10000, 0⟩ <;> simp
  · intro hd; subst hd; exact ⟨by decide, by decide⟩
  · intro hd; subst hd; exact ⟨by decide, by decide⟩

/-- Witness for C6 at a concrete event of amount 5. -/
theorem eventbus_partition_witness :
    (0 : Int) ≤ (⟨5, 0⟩ : Dec).m ∧
    ((highValueRuleMatches (busEventAt ⟨5, 0⟩) = true ∧
        standardRuleMatches (busEventAt ⟨5, 0⟩) = false) ∨
     (highValueRuleMatches (busEventAt ⟨5, 0⟩) = false ∧
        standardRuleMatches (busEventAt ⟨5, 0⟩) = true)) :=
  ⟨by decide,
   (eventbus_partition (busEventAt ⟨5, 0⟩) ⟨5, 0⟩ rfl rfl rfl (by decide)).1⟩

/-- Claim C10: every 200 response of the receiver that performed side
effects used one payment id and one timestamp consistently: the
DynamoDB key, the S3 archive key, the processing-queue message and the
response body all carry the same pair. -/
theorem receiver_id_consistency (req : ApiRequest) (uuid : String) (now : Int)
    (nowIso today : String)
    (h200 : (webhookHandler req uuid now nowIso today).statusCode = 200)
    (heff : (webhookHandler req uuid now nowIso today).effects ≠ []) :
    ∃ pid p,
      (webhookHandler req uuid now nowIso today).effects =
        [ReceiverEffect.dynamoPut pid now (receiverItem p),
         ReceiverEffect.s3Put ("webhooks/" ++ today ++ "/" ++ pid ++ ".json") p,
         ReceiverEffect.sqsSend pid now p] ∧
      (webhookHandler req uuid now nowIso today).body =
        RespBody.success "Webhook received" pid now := by
  unfold webhookHandler at h200 heff ⊢
  by_cases hh : req.path = "/health" ∨ req.httpMethod = "GET"
  · rw [if_pos hh] at heff
    exact absurd rfl heff
  · rw [if_neg hh] at h200 heff ⊢
    cases hb : req.body with
    | none =>
      rw [hb] at h200
      simp at h200
    | some rb =>
      cases rb with
      | malformed =>
        rw [hb] at h200
        simp at h200
      | json p =>
        exact ⟨jsOrStr p.paymentId uuid, p, rfl, rfl⟩

/-- Witness for C10 at a concrete accepted webhook. -/
theorem receiver_id_consistency_witness :
    (webhookHandler ⟨"/webhook", "POST", some "sig", none,
        some (ReqBody.json payloadFailedAbc)⟩ "u" 42 "iso" "2026-10-11").statusCode
      = 200 ∧
    (webhookHandler ⟨"/webhook", "POST", some "sig", none,
        some (ReqBody.json payloadFailedAbc)⟩ "u" 42 "iso" "2026-10-11").effects
      ≠ [] ∧
    ∃ pid p,
      (webhookHandler ⟨"/webhook", "POST", some "sig", none,
          some (ReqBody.json payloadFailedAbc)⟩ "u" 42 "iso" "2026-10-11").effects =
        [ReceiverEffect.dynamoPut pid 42 (receiverItem p),
         ReceiverEffect.s3Put ("webhooks/" ++ "2026-10-11" ++ "/" ++ pid ++ ".json") p,
         ReceiverEffect.sqsSend pid 42 p] ∧
      (webhookHandler ⟨"/webhook", "POST", some "sig", none,
          some (ReqBody.json payloadFailedAbc)⟩ "u" 42 "iso" "2026-10-11").body =
        RespBody.success "Webhook received" pid 42 :=
  ⟨by decide, by decide,
   receiver_id_consistency ⟨"/webhook", "POST", some "sig", none,
      some (ReqBody.json payloadFailedAbc)⟩ "u" 42 "iso" "2026-10-11"
      (by decide) (by decide)⟩

end PaymentWebhooks
